import Mathlib

/-
Verification of the multi-agent-engine runtime: a shallow embedding of
the dual-thread orchestrator (src/multi-agent-engine/src/multi_agent_engine.rs),
the message queue (src/src/message/queue.rs), and the send/receive
transport semantics used by the example (src/examples/getting_started.rs),
together with theorems settling the spec's claims about them.
-/

/-- Decidable equality for `Except`, needed so concrete runs of the
embedded operations can be checked by evaluation. -/
instance {ε α : Type} [DecidableEq ε] [DecidableEq α] : DecidableEq (Except ε α) := fun a b =>
  match a, b with
  | .ok x, .ok y =>
    if h : x = y then .isTrue (by rw [h]) else .isFalse (fun hc => h (Except.ok.inj hc))
  | .ok _, .error _ => .isFalse (fun hc => Except.noConfusion hc)
  | .error _, .ok _ => .isFalse (fun hc => Except.noConfusion hc)
  | .error x, .error y =>
    if h : x = y then .isTrue (by rw [h]) else .isFalse (fun hc => h (Except.error.inj hc))

namespace MultiAgentEngine

/-- Modelled from the spec: the `Error` type of the `multi_agent_engine_core`
crate, which is not under src/.  Section 7 of the design gives two
engine-level error classes: an agent execution fault wrapping opaque fault
information (the `Error::Thread` variant, used at multi_agent_engine.rs:51-52
via `map_err(Error::Thread)`), and an agent-reported failure propagated
verbatim (modelled here by the `Other` constructor carrying opaque
information).  The opaque payloads are modelled as natural numbers. -/
inductive Error where
  | Thread (payload : Nat)
  | Other (info : Nat)
deriving DecidableEq, Repr

/-- Outcome of one spawned agent thread as observed at its join point
(multi_agent_engine.rs:48-49, `thread::spawn(move || agent.run())`): the
thread either raised an unrecoverable fault (panicked) with an opaque
payload, or ran the agent's `run` to completion yielding the agent's own
`Result<()>`. -/
inductive ThreadOutcome where
  | faulted (payload : Nat)
  | finished (r : Except Error Unit)
deriving DecidableEq, Repr

/-- The value of `handle.join().map_err(Error::Thread)?` at
multi_agent_engine.rs:51-52: a faulted thread's opaque payload is wrapped
into `Error.Thread`; a finished thread yields the agent's returned result
unchanged. -/
def joinResult : ThreadOutcome → Except Error Unit
  | .faulted p => .error (.Thread p)
  | .finished r => r

/-- A join that `MultiAgentEngine::run` performed, in program order. -/
inductive JoinEvent where
  | controller
  | simulator
deriving DecidableEq, Repr

/-- Result of `MultiAgentEngine::run` together with the list of joins the
call actually executed, in the order it executed them. -/
structure RunTrace where
  result : Except Error Unit
  joins : List JoinEvent
deriving DecidableEq, Repr

/-- MultiAgentEngine::run (multi_agent_engine.rs:42-55), as a function of
the two thread outcomes.  Line 51 `controller_handle.join().map_err(Error::Thread)??`
joins the controller's thread and, via the two `?` operators, returns
early on a controller fault or controller-reported failure; only when it
succeeds does line 52 join the simulator's thread the same way.  An early
return drops `simulator_handle` without joining it, so the trace records
only the controller join in that case. -/
def run (c s : ThreadOutcome) : RunTrace :=
  match joinResult c with
  | .error e => { result := .error e, joins := [.controller] }
  | .ok _ =>
    match joinResult s with
    | .error e => { result := .error e, joins := [.controller, .simulator] }
    | .ok _ => { result := .ok (), joins := [.controller, .simulator] }

/-- The `Result<()>` value `MultiAgentEngine::run` returns to its caller. -/
def runResult (c s : ThreadOutcome) : Except Error Unit := (run c s).result

/-- Controller-side execution fault, if any (spec section 4.4 wording). -/
def faultOf : ThreadOutcome → Option Error
  | .faulted p => some (.Thread p)
  | .finished _ => none

/-- Agent-reported failure, if any (spec section 4.4 wording). -/
def failureOf : ThreadOutcome → Option Error
  | .finished (.error e) => some e
  | _ => none

/-- Follows the spec's words (section 4.4): the first error encountered in
the fixed precedence order: controller's fault, else controller's returned
failure, else simulator's fault, else simulator's returned failure. -/
def specFirstError (c s : ThreadOutcome) : Option Error :=
  match faultOf c with
  | some e => some e
  | none =>
    match failureOf c with
    | some e => some e
    | none =>
      match faultOf s with
      | some e => some e
      | none => failureOf s

/-- Lift the spec's "first error, if any" into the result type: an error is
propagated, no error is overall success. -/
def ofFirstError : Option Error → Except Error Unit
  | some e => .error e
  | none => .ok ()

end MultiAgentEngine

namespace message

variable {T : Type}

/-- What one `Receiver::receive()` call yields, per spec section 4.1: a
nonempty ordered batch of all currently buffered messages; a
"disconnected" failure when the transport is closed and empty; or the
call blocks (modelled as the explicit outcome `wouldBlock`) when the
buffer is empty but senders remain. -/
inductive ReceiveOutcome (T : Type) where
  | batch (msgs : List T)
  | disconnected
  | wouldBlock
deriving DecidableEq, Repr

/-- One underlying channel transport as created by
`crossbeam_channel::unbounded()` (queue.rs:35): the ordered buffer of
not-yet-drained messages plus the counts of live Sender and Receiver
handles attached to it (the counts drive the disconnection condition). -/
structure Transport (T : Type) where
  buffer : List T
  senderCount : Nat
  receiverCount : Nat
deriving DecidableEq, Repr

/-- A freshly created transport: empty buffer, one canonical sender
handle and one canonical receiver handle. -/
def Transport.fresh : Transport T := ⟨[], 1, 1⟩

/-- Modelled from the spec: `Sender::send` (its source file is not under
src/; only callers such as getting_started.rs:57 are).  Section 4.1:
enqueues a single message by appending to the shared transport's tail;
non-blocking and infallible, so it is a total function on transports. -/
def Transport.send (m : T) (t : Transport T) : Transport T :=
  { t with buffer := t.buffer ++ [m] }

/-- A sequence of sends in order: each message is enqueued at the tail. -/
def Transport.sendAll (ms : List T) (t : Transport T) : Transport T :=
  ms.foldl (fun a m => Transport.send m a) t

/-- Modelled from the spec: `Receiver::receive` (its source file is not
under src/; only callers such as getting_started.rs:60 are).  Section 4.1:
if at least one message is buffered the call atomically removes and
returns all of them as one ordered batch; if the buffer is empty and all
senders have been dropped the call fails with the disconnected condition;
otherwise the call blocks awaiting a message (outcome `wouldBlock`,
leaving the state unchanged). -/
def Transport.receive (t : Transport T) : ReceiveOutcome T × Transport T :=
  if t.buffer.isEmpty then
    if t.senderCount = 0 then (.disconnected, t) else (.wouldBlock, t)
  else (.batch t.buffer, { t with buffer := [] })

/-- Element of a list at an index, `none` past the end. -/
def getIdx : List α → Nat → Option α
  | [], _ => none
  | x :: _, 0 => some x
  | _ :: xs, n + 1 => getIdx xs n

/-- Apply a function to the element at an index, when present. -/
def modifyIdx : List α → Nat → (α → α) → List α
  | [], _, _ => []
  | x :: xs, 0, f => f x :: xs
  | x :: xs, n + 1, f => x :: modifyIdx xs n f

/-- The collection of all live transports; a handle refers to its
transport by index, so two handles with the same index share one
transport. -/
structure World (T : Type) where
  transports : List (Transport T)
deriving DecidableEq, Repr

/-- A Sender handle: it carries only the identity of the transport it is
attached to. -/
structure Sender (T : Type) where
  id : Nat
deriving DecidableEq, Repr

/-- A Receiver handle: it carries only the identity of the transport it
is attached to. -/
structure Receiver (T : Type) where
  id : Nat
deriving DecidableEq, Repr

/-- Modelled from the spec: `crossbeam_channel::unbounded()` as called at
queue.rs:35, per section 4.1 — creates one fresh, unbounded transport
(one that no existing handle refers to) and returns one linked
sender/receiver pair attached to it. -/
def World.unbounded (w : World T) : (Sender T × Receiver T) × World T :=
  ((⟨w.transports.length⟩, ⟨w.transports.length⟩),
    ⟨w.transports ++ [Transport.fresh]⟩)

/-- Modelled from the spec: cloning a Sender (spec section 4.1) yields
another handle to the same underlying transport — the clone carries the
same transport identity, and the transport's live-sender count grows by
one; no new transport is created. -/
def Sender.clone (s : Sender T) (w : World T) : Sender T × World T :=
  (⟨s.id⟩, ⟨modifyIdx w.transports s.id
    (fun t => { t with senderCount := t.senderCount + 1 })⟩)

/-- Modelled from the spec: cloning a Receiver yields another handle to
the same underlying transport, growing its live-receiver count. -/
def Receiver.clone (r : Receiver T) (w : World T) : Receiver T × World T :=
  (⟨r.id⟩, ⟨modifyIdx w.transports r.id
    (fun t => { t with receiverCount := t.receiverCount + 1 })⟩)

/-- Send through a handle: enqueue onto the handle's transport. -/
def Sender.send (s : Sender T) (m : T) (w : World T) : World T :=
  ⟨modifyIdx w.transports s.id (Transport.send m)⟩

/-- Send a whole sequence of messages through a handle, in order. -/
def Sender.sendAll (s : Sender T) (ms : List T) (w : World T) : World T :=
  ms.foldl (fun a m => s.send m a) w

/-- Receive through a handle: drain the handle's transport.  A handle
whose index is dangling (never produced by `World.unbounded`) observes no
transport and blocks. -/
def Receiver.receive (r : Receiver T) (w : World T) : ReceiveOutcome T × World T :=
  match getIdx w.transports r.id with
  | none => (.wouldBlock, w)
  | some t =>
    ((t.receive).1, ⟨modifyIdx w.transports r.id (fun _ => (t.receive).2)⟩)

/-- The Queue struct (queue.rs:21-27): it owns one canonical Sender and
one canonical Receiver for its entire lifetime. -/
structure Queue (T : Type) where
  sender : Sender T
  receiver : Receiver T
deriving DecidableEq, Repr

/-- Queue::default (queue.rs:29-42): calls `unbounded()` and wraps the
returned linked pair as the canonical sender and receiver. -/
def Queue.default (w : World T) : Queue T × World T :=
  (⟨((World.unbounded w).1).1, ((World.unbounded w).1).2⟩, (World.unbounded w).2)

/-- Queue::new (queue.rs:48-51): `Self::default()`. -/
def Queue.new (w : World T) : Queue T × World T := Queue.default w

/-- Queue::sender (queue.rs:53-56): takes the queue by shared reference
and returns `self.sender.clone()`, a fresh handle to the canonical
sender's transport; the queue value itself is unchanged. -/
def Queue.getSender (q : Queue T) (w : World T) : Sender T × World T :=
  q.sender.clone w

/-- Queue::receiver (queue.rs:58-61): takes the queue by shared reference
and returns `self.receiver.clone()`. -/
def Queue.getReceiver (q : Queue T) (w : World T) : Receiver T × World T :=
  q.receiver.clone w

/-- Modelled from the spec: `Queue::channel` (called at
getting_started.rs:115-116 but not itself under src/) — creates one
fresh transport and returns one linked sender/receiver pair connected to
that same transport, i.e. a fresh Queue's canonical pair. -/
def Queue.channel (w : World T) : (Sender T × Receiver T) × World T :=
  (((Queue.default w).1.sender, (Queue.default w).1.receiver), (Queue.default w).2)

/-- Iterate `Queue::sender` n times from a world, keeping only the world:
models calling the accessor any number of times. -/
def Queue.callGetSenderN (q : Queue T) : Nat → World T → World T
  | 0, w => w
  | n + 1, w => Queue.callGetSenderN q n (q.getSender w).2

end message

namespace message

/-- Events that outside code can perform on a live Queue value and the
handles obtained from it.  While the Queue value is alive it owns its
canonical Sender and Receiver fields (queue.rs:21-27), so the only
handles outside code can drop are the clones returned by
`Queue::sender()` / `Queue::receiver()`; dropping such a clone releases
one cloned handle and can never release a canonical one. -/
inductive QueueEvent (T : Type) where
  | getSender
  | getReceiver
  | dropClonedSender
  | dropClonedReceiver
  | send (m : T)
  | drain
deriving DecidableEq, Repr

/-- State of a live Queue's transport, with the cloned handles counted
separately from the canonical pair the Queue itself owns. -/
structure QueueLife (T : Type) where
  buffer : List T
  clonedSenders : Nat
  clonedReceivers : Nat
deriving DecidableEq, Repr

/-- Total number of live sender handles: the canonical one held by the
Queue plus the outstanding clones. -/
def QueueLife.senderHandles (q : QueueLife T) : Nat := q.clonedSenders + 1

/-- A freshly constructed Queue's life state: empty buffer, no clones. -/
def QueueLife.init : QueueLife T := ⟨[], 0, 0⟩

/-- Effect of one event on a live Queue's state.  `drain` is the state
effect of a completed `receive()` call; dropping a clone removes one
cloned handle (truncated subtraction: there is nothing else to drop). -/
def stepEvent : QueueEvent T → QueueLife T → QueueLife T
  | .getSender, q => { q with clonedSenders := q.clonedSenders + 1 }
  | .getReceiver, q => { q with clonedReceivers := q.clonedReceivers + 1 }
  | .dropClonedSender, q => { q with clonedSenders := q.clonedSenders - 1 }
  | .dropClonedReceiver, q => { q with clonedReceivers := q.clonedReceivers - 1 }
  | .send m, q => { q with buffer := q.buffer ++ [m] }
  | .drain, q => { q with buffer := [] }

/-- Run a whole sequence of events from a state. -/
def runEvents (es : List (QueueEvent T)) (q : QueueLife T) : QueueLife T :=
  es.foldl (fun a e => stepEvent e a) q

/-- The transport corresponding to a live Queue's state: its sender count
includes the canonical sender the Queue still owns. -/
def QueueLife.toTransport (q : QueueLife T) : Transport T :=
  ⟨q.buffer, q.senderHandles, q.clonedReceivers + 1⟩

end message

namespace MultiAgentEngine

/-- C1, counterexample.  The claim says that even when the controller's run
returns a failure, the simulator's thread is still joined before the error
is reported.  At the concrete input where the controller returns a failure
and the simulator returns success, `run` reports the controller's failure
with only the controller join in its trace: the simulator's thread was
never joined (its handle is dropped at the early return of
multi_agent_engine.rs:51, detaching the thread). -/
theorem run_detaches_simulator_on_controller_failure :
    JoinEvent.simulator ∉
      (run (.finished (.error (.Other 0))) (.finished (.ok ()))).joins ∧
    (run (.finished (.error (.Other 0))) (.finished (.ok ()))).result
      = .error (.Other 0) := by
  decide

/-- C1, amended.  `MultiAgentEngine::run` always joins the controller's
thread, and joins the simulator's thread exactly when the controller's
join succeeded (no controller fault and no controller-reported failure);
on a controller fault or failure the error is propagated immediately and
the simulator's thread is left unjoined (detached). -/
theorem simulator_joined_iff_controller_ok (c s : ThreadOutcome) :
    (JoinEvent.simulator ∈ (run c s).joins ↔ joinResult c = .ok ()) ∧
    JoinEvent.controller ∈ (run c s).joins := by
  cases c with
  | faulted p => simp [run, joinResult]
  | finished r =>
    cases r with
    | error e => simp [run, joinResult]
    | ok u =>
      cases s with
      | faulted q => simp [run, joinResult]
      | finished r2 =>
        cases r2 with
        | error e2 => simp [run, joinResult]
        | ok u2 => simp [run, joinResult]

/-- C2.  For every combination of agent outcomes, `MultiAgentEngine::run`
propagates exactly the first error in the fixed precedence order
(controller's fault, else controller's returned failure, else simulator's
fault, else simulator's returned failure; success when none), and the
joins it performs occur in the fixed order: the controller's thread first,
then (when reached) the simulator's. -/
theorem run_propagates_first_error_in_precedence_order (c s : ThreadOutcome) :
    runResult c s = ofFirstError (specFirstError c s) ∧
    ((run c s).joins = [JoinEvent.controller] ∨
     (run c s).joins = [JoinEvent.controller, JoinEvent.simulator]) := by
  cases c with
  | faulted p =>
    simp [run, runResult, joinResult, specFirstError, faultOf, failureOf, ofFirstError]
  | finished r =>
    cases r with
    | error e =>
      simp [run, runResult, joinResult, specFirstError, faultOf, failureOf, ofFirstError]
    | ok u =>
      cases s with
      | faulted q =>
        simp [run, runResult, joinResult, specFirstError, faultOf, failureOf, ofFirstError]
      | finished r2 =>
        cases r2 with
        | error e2 =>
          simp [run, runResult, joinResult, specFirstError, faultOf, failureOf, ofFirstError]
        | ok u2 =>
          simp [run, runResult, joinResult, specFirstError, faultOf, failureOf, ofFirstError]

/-- C5.  When the controller's join succeeds and the simulator's run raises
an unrecoverable fault with opaque payload p, `MultiAgentEngine::run`
yields the agent-execution-fault error `Error.Thread p` wrapping that
payload, and this error value is distinguishable from every normal
agent-reported failure value `Error.Other i`. -/
theorem simulator_fault_reported_as_thread_error (p i : Nat) (c : ThreadOutcome)
    (h : joinResult c = .ok ()) :
    runResult c (.faulted p) = .error (.Thread p) ∧
    Error.Thread p ≠ Error.Other i := by
  constructor
  · have hrun : run c (.faulted p)
        = { result := .error (.Thread p), joins := [.controller, .simulator] } := by
      unfold run
      rw [h]
      rfl
    simp [runResult, hrun]
  · intro hcontra
    cases hcontra

/-- C5, witness: the theorem applied at a controller that finishes with
success and a simulator thread that faulted with payload 7. -/
theorem simulator_fault_reported_as_thread_error_witness :
    joinResult (.finished (.ok ())) = .ok () ∧
    (runResult (.finished (.ok ())) (.faulted 7) = .error (.Thread 7) ∧
     Error.Thread 7 ≠ Error.Other 3) := by
  refine ⟨rfl, ?_⟩
  exact simulator_fault_reported_as_thread_error 7 3 (.finished (.ok ())) rfl

/-- C6.  When the controller's run returns success and the simulator's run
returns success, `MultiAgentEngine::run` returns overall success. -/
theorem run_ok_of_both_ok :
    runResult (.finished (.ok ())) (.finished (.ok ())) = .ok () := by
  decide

end MultiAgentEngine

namespace message

variable {T : Type}

/-- Indexing just past an appended singleton finds it. -/
theorem getIdx_append_length (l : List α) (x : α) :
    getIdx (l ++ [x]) l.length = some x := by
  induction l with
  | nil => rfl
  | cons a as ih => simpa [getIdx] using ih

/-- Indexing a list at its own length finds nothing. -/
theorem getIdx_self_length (l : List α) : getIdx l l.length = none := by
  induction l with
  | nil => rfl
  | cons a as ih => simpa [getIdx] using ih

/-- Modifying just past an appended singleton modifies it. -/
theorem modifyIdx_append_length (l : List α) (x : α) (f : α → α) :
    modifyIdx (l ++ [x]) l.length f = l ++ [f x] := by
  induction l with
  | nil => rfl
  | cons a as ih => simpa [modifyIdx] using ih

/-- Modifying an element preserves the length. -/
theorem modifyIdx_length (l : List α) (i : Nat) (f : α → α) :
    (modifyIdx l i f).length = l.length := by
  induction l generalizing i with
  | nil => rfl
  | cons a as ih =>
    cases i with
    | zero => rfl
    | succ n => simpa [modifyIdx] using ih n

/-- Reading after a modification: the modified index sees the function
applied, every other index is untouched. -/
theorem getIdx_modifyIdx (l : List α) (i j : Nat) (f : α → α) :
    getIdx (modifyIdx l i f) j = if i = j then (getIdx l j).map f else getIdx l j := by
  induction l generalizing i j with
  | nil => cases i <;> cases j <;> simp [modifyIdx, getIdx]
  | cons a as ih =>
    cases i with
    | zero =>
      cases j with
      | zero => simp [modifyIdx, getIdx]
      | succ m => simp [modifyIdx, getIdx]
    | succ n =>
      cases j with
      | zero => simp [modifyIdx, getIdx]
      | succ m =>
        simp only [modifyIdx, getIdx, ih n m]
        by_cases h : n = m
        · simp [h]
        · simp [h, fun hc => h (Nat.succ.inj hc)]

/-- A sequence of sends appends the messages, in order, to the buffer. -/
theorem sendAll_buffer (ms : List T) (t : Transport T) :
    (Transport.sendAll ms t).buffer = t.buffer ++ ms := by
  induction ms generalizing t with
  | nil => simp [Transport.sendAll]
  | cons m rest ih =>
    have h : Transport.sendAll (m :: rest) t
        = Transport.sendAll rest (Transport.send m t) := rfl
    rw [h, ih]
    simp [Transport.send]

/-- Sending messages does not change the live-sender count. -/
theorem sendAll_senderCount (ms : List T) (t : Transport T) :
    (Transport.sendAll ms t).senderCount = t.senderCount := by
  induction ms generalizing t with
  | nil => rfl
  | cons m rest ih =>
    have h : Transport.sendAll (m :: rest) t
        = Transport.sendAll rest (Transport.send m t) := rfl
    rw [h, ih]
    rfl

/-- Sending a sequence through a handle acts on exactly the handle's
transport, as the transport-level sendAll. -/
theorem getIdx_sendAll (s : Sender T) (ms : List T) (w : World T) (t : Transport T)
    (h : getIdx w.transports s.id = some t) :
    getIdx ((s.sendAll ms w).transports) s.id = some (Transport.sendAll ms t) := by
  induction ms generalizing w t with
  | nil => simpa [Sender.sendAll, Transport.sendAll] using h
  | cons m rest ih =>
    have hstep : getIdx ((s.send m w).transports) s.id = some (Transport.send m t) := by
      simp [Sender.send, getIdx_modifyIdx, h]
    have hfold : s.sendAll (m :: rest) w = s.sendAll rest (s.send m w) := rfl
    rw [hfold]
    exact ih (s.send m w) (Transport.send m t) hstep

/-- C3.  Starting from a fresh transport, after any nonempty sequence of
sends and before any receive, a single `receive()` returns exactly the
sent messages, in send order, as one batch; it leaves the buffer empty,
and a subsequent `receive()` on the drained transport blocks awaiting new
messages (it replays nothing). -/
theorem receive_drains_batch_in_send_order (ms : List T) (h : ms ≠ []) :
    ((Transport.sendAll ms (Transport.fresh : Transport T)).receive).1
      = ReceiveOutcome.batch ms ∧
    (((Transport.sendAll ms (Transport.fresh : Transport T)).receive).2).buffer = [] ∧
    ((((Transport.sendAll ms (Transport.fresh : Transport T)).receive).2).receive).1
      = ReceiveOutcome.wouldBlock := by
  have hb : (Transport.sendAll ms (Transport.fresh : Transport T)).buffer = ms := by
    simpa [Transport.fresh] using sendAll_buffer ms (Transport.fresh : Transport T)
  have hs : (Transport.sendAll ms (Transport.fresh : Transport T)).senderCount = 1 := by
    simpa [Transport.fresh] using sendAll_senderCount ms (Transport.fresh : Transport T)
  have hrecv : (Transport.sendAll ms (Transport.fresh : Transport T)).receive
      = (ReceiveOutcome.batch ms,
         { Transport.sendAll ms (Transport.fresh : Transport T) with buffer := [] }) := by
    simp [Transport.receive, hb, h]
  refine ⟨by rw [hrecv], by rw [hrecv], ?_⟩
  rw [hrecv]
  simp [Transport.receive, hs]

/-- C3, witness: the theorem applied to the concrete send sequence
[1, 2, 3] on a fresh transport of naturals. -/
theorem receive_drains_batch_in_send_order_witness :
    ([1, 2, 3] : List Nat) ≠ [] ∧
    (((Transport.sendAll [1, 2, 3] (Transport.fresh : Transport Nat)).receive).1
        = ReceiveOutcome.batch [1, 2, 3] ∧
     (((Transport.sendAll [1, 2, 3] (Transport.fresh : Transport Nat)).receive).2).buffer
        = [] ∧
     ((((Transport.sendAll [1, 2, 3] (Transport.fresh : Transport Nat)).receive).2).receive).1
        = ReceiveOutcome.wouldBlock) :=
  ⟨by decide, receive_drains_batch_in_send_order [1, 2, 3] (by decide)⟩

/-- C4.  On a transport whose buffer is empty and whose live senders have
all been dropped, `receive()` yields the disconnected failure condition —
it does not block. -/
theorem receive_disconnected_of_closed_empty (t : Transport T)
    (h1 : t.buffer = []) (h2 : t.senderCount = 0) :
    (t.receive).1 = ReceiveOutcome.disconnected ∧
    (t.receive).1 ≠ ReceiveOutcome.wouldBlock := by
  constructor
  · simp [Transport.receive, h1, h2]
  · simp [Transport.receive, h1, h2]

/-- C4, witness: the theorem applied to the concrete closed empty
transport with no senders and one receiver. -/
theorem receive_disconnected_of_closed_empty_witness :
    (⟨[], 0, 1⟩ : Transport Nat).buffer = [] ∧
    (⟨[], 0, 1⟩ : Transport Nat).senderCount = 0 ∧
    (((⟨[], 0, 1⟩ : Transport Nat).receive).1 = ReceiveOutcome.disconnected ∧
     ((⟨[], 0, 1⟩ : Transport Nat).receive).1 ≠ ReceiveOutcome.wouldBlock) :=
  ⟨rfl, rfl, receive_disconnected_of_closed_empty (⟨[], 0, 1⟩ : Transport Nat) rfl rfl⟩

/-- C7.  Cloning the canonical Sender or Receiver of a fresh Queue (what
`Queue::sender()` / `Queue::receiver()` do) returns a handle equal to the
canonical one — it refers to the same underlying transport, so using the
clone has identical observable effect to using the original; no new
transport is created by cloning; and a message sent through the sender
clone is observed, as the next received batch, through the receiver
clone. -/
theorem clone_shares_transport (w₀ : World T) (m : T) :
    let q := (Queue.default w₀).1
    let w₁ := (Queue.default w₀).2
    let sc := q.getSender w₁
    let rc := q.getReceiver sc.2
    let w₄ := sc.1.send m rc.2
    sc.1 = q.sender ∧
    rc.1 = q.receiver ∧
    (sc.2).transports.length = w₁.transports.length ∧
    (rc.2).transports.length = w₁.transports.length ∧
    (rc.1.receive w₄).1 = ReceiveOutcome.batch [m] := by
  intro q w₁ sc rc w₄
  have hq : q = ⟨⟨w₀.transports.length⟩, ⟨w₀.transports.length⟩⟩ := rfl
  have hw₁ : w₁ = ⟨w₀.transports ++ [Transport.fresh]⟩ := rfl
  have hsc : sc = (⟨w₀.transports.length⟩,
      ⟨w₀.transports ++ [⟨[], 2, 1⟩]⟩) := by
    show q.sender.clone w₁ = _
    rw [hq, hw₁]
    simp [Sender.clone, Transport.fresh, modifyIdx_append_length]
  have hrc : rc = (⟨w₀.transports.length⟩,
      ⟨w₀.transports ++ [⟨[], 2, 2⟩]⟩) := by
    show q.receiver.clone sc.2 = _
    rw [hq, hsc]
    simp [Receiver.clone, modifyIdx_append_length]
  have hw₄ : w₄ = ⟨w₀.transports ++ [⟨[m], 2, 2⟩]⟩ := by
    show sc.1.send m rc.2 = _
    rw [hsc, hrc]
    simp [Sender.send, Transport.send, modifyIdx_append_length]
  refine ⟨rfl, rfl, ?_, ?_, ?_⟩
  · rw [hsc, hw₁]
    simp
  · rw [hrc, hw₁]
    simp
  · rw [hrc, hw₄]
    simp [Receiver.receive, getIdx_append_length, Transport.receive]

/-- C8.  `Queue::channel` (equivalently constructing a Queue and taking
its canonical pair) creates exactly one fresh transport — one no existing
handle referred to — and returns a linked sender/receiver pair both
attached to that same transport, which starts empty with the single
canonical handle of each kind; enqueuing any sequence of messages through
the returned Sender always succeeds (send is total, never blocking) and
leaves exactly those messages in the buffer, in send order. -/
theorem channel_fresh_linked_pair (w : World T) (ms : List T) :
    let c := Queue.channel w
    c.1.1.id = c.1.2.id ∧
    getIdx w.transports c.1.1.id = none ∧
    getIdx c.2.transports c.1.1.id = some (Transport.fresh) ∧
    c.2.transports.length = w.transports.length + 1 ∧
    (getIdx ((c.1.1.sendAll ms c.2).transports) c.1.1.id).map Transport.buffer
      = some ms := by
  intro c
  have hc : c = ((⟨w.transports.length⟩, ⟨w.transports.length⟩),
      ⟨w.transports ++ [Transport.fresh]⟩) := rfl
  refine ⟨rfl, ?_, ?_, ?_, ?_⟩
  · rw [hc]
    exact getIdx_self_length w.transports
  · rw [hc]
    exact getIdx_append_length w.transports Transport.fresh
  · rw [hc]
    simp
  · have hfresh : getIdx c.2.transports c.1.1.id = some (Transport.fresh) := by
      rw [hc]
      exact getIdx_append_length w.transports Transport.fresh
    rw [getIdx_sendAll c.1.1 ms c.2 Transport.fresh hfresh]
    simp [sendAll_buffer, Transport.fresh]

/-- C9.  A live Queue value owns its canonical Sender and Receiver fields
for its whole lifetime, and `Queue::sender()` / `Queue::receiver()` hand
out only clones; hence after any sequence of accessor calls, clone drops,
sends and drains performed while the Queue is alive, at least one sender
handle (the canonical one) remains, and a `receive()` on the Queue's
transport can never observe the all-senders-dropped disconnected
condition. -/
theorem alive_never_disconnected (es : List (QueueEvent T)) :
    1 ≤ (runEvents es (QueueLife.init : QueueLife T)).senderHandles ∧
    (((runEvents es (QueueLife.init : QueueLife T)).toTransport).receive).1
      ≠ ReceiveOutcome.disconnected := by
  constructor
  · exact Nat.succ_le_succ (Nat.zero_le _)
  · cases hb : (runEvents es (QueueLife.init : QueueLife T)).buffer with
    | nil =>
      simp [Transport.receive, QueueLife.toTransport, QueueLife.senderHandles, hb]
    | cons x xs =>
      simp [Transport.receive, QueueLife.toTransport, QueueLife.senderHandles, hb]

/-- Iterated `Queue::sender()` calls preserve the number of transports and
every transport's buffer (they only bump live-handle counts). -/
theorem callGetSenderN_preserves (q : Queue T) (n : Nat) (w : World T) :
    (Queue.callGetSenderN q n w).transports.length = w.transports.length ∧
    ∀ i, (getIdx (Queue.callGetSenderN q n w).transports i).map Transport.buffer
      = (getIdx w.transports i).map Transport.buffer := by
  induction n generalizing w with
  | zero => exact ⟨rfl, fun i => rfl⟩
  | succ k ih =>
    have hstep : Queue.callGetSenderN q (k + 1) w
        = Queue.callGetSenderN q k (q.getSender w).2 := rfl
    have hlen : ((q.getSender w).2).transports.length = w.transports.length := by
      simp [Queue.getSender, Sender.clone, modifyIdx_length]
    have hbuf : ∀ i, (getIdx ((q.getSender w).2).transports i).map Transport.buffer
        = (getIdx w.transports i).map Transport.buffer := by
      intro i
      simp only [Queue.getSender, Sender.clone, getIdx_modifyIdx]
      by_cases h : q.sender.id = i
      · simp only [if_pos h]
        cases getIdx w.transports i <;> simp
      · simp only [if_neg h]
    obtain ⟨ihlen, ihbuf⟩ := ih (q.getSender w).2
    constructor
    · rw [hstep, ihlen, hlen]
    · intro i
      rw [hstep, ihbuf i, hbuf i]

/-- C10.  `Queue::sender()` and `Queue::receiver()` take the Queue by
shared reference: after any number of calls the Queue value is unchanged,
every transport buffer in the world is unchanged, no transport is created
or destroyed, and each returned handle equals the Queue's corresponding
canonical handle — it refers to the same single underlying transport as
the canonical pair, which itself is one shared transport. -/
theorem accessors_preserve_state (w₀ : World T) (n : Nat) :
    let q := (Queue.default w₀).1
    let w₁ := (Queue.default w₀).2
    let w₂ := Queue.callGetSenderN q n w₁
    (q.getSender w₂).1 = q.sender ∧
    (q.getReceiver w₂).1 = q.receiver ∧
    q.sender.id = q.receiver.id ∧
    w₂.transports.length = w₁.transports.length ∧
    ∀ i, (getIdx w₂.transports i).map Transport.buffer
      = (getIdx w₁.transports i).map Transport.buffer := by
  intro q w₁ w₂
  obtain ⟨hlen, hbuf⟩ := callGetSenderN_preserves q n w₁
  exact ⟨rfl, rfl, rfl, hlen, hbuf⟩

end message
